import Mathlib

/-!
Verification of the netscanner packet-capture component against its
specification.  The definitions below are a shallow embedding of the Rust
sources:

  * `src/enums.rs` — `PacketTypeEnum` with `previous`/`next`, the typed
    packet records (`PacketsInfoTypesEnum` and its payload structs),
    `TabsEnum`;
  * `src/components/packetdump.rs` — the `PacketDump` component state, its
    `update` function, the worker-lifecycle helpers (`start_loop`,
    `restart_loop`, the `changed_interface` check), and the pure dissector
    helpers (`handle_icmp_packet`, `handle_arp_packet`);
  * `src/components/export.rs` — the `Export` component's `update`/`draw`.

Machine integers are modelled as `Nat` (all values involved are small and
no arithmetic overflows occur: enum discriminants ≤ 5, byte values < 256,
u16 fields are produced as `hi*256+lo < 65536`).  Wall-clock timestamps are
opaque `Nat` tokens.  Worker threads are modelled by an explicit set of
alive worker ids plus the shared `dump_stop` flag: a worker can terminate
only by observing `dump_stop = true` (the only exit path of `t_logic`'s
loop), which is the `workerExit` step below.
-/

namespace Netscanner

/-- Model of `enums.rs`: `TabsEnum` (`Discovery`, `Packets`, `Ports`). -/
inductive TabsEnum
  | Discovery
  | Packets
  | Ports
deriving DecidableEq, Repr

/-- Model of `mode.rs` (referenced from `packetdump.rs`): `Mode` is `Normal` or `Input`. -/
inductive Mode
  | Normal
  | Input
deriving DecidableEq, Repr

/-- Model of `enums.rs`: `PacketTypeEnum` with discriminants 0..5 in declaration
order (`All`, `Arp`, `Tcp`, `Udp`, `Icmp`, `Icmp6`). -/
inductive PacketTypeEnum
  | All
  | Arp
  | Tcp
  | Udp
  | Icmp
  | Icmp6
deriving DecidableEq, Repr

namespace PacketTypeEnum

/-- Model of `*self as usize`: the strum discriminant of a `PacketTypeEnum` value. -/
def toIdx : PacketTypeEnum → Nat
  | .All => 0
  | .Arp => 1
  | .Tcp => 2
  | .Udp => 3
  | .Icmp => 4
  | .Icmp6 => 5

/-- Model of `Self::from_repr` (derived by strum's `FromRepr`): the value with the
given discriminant, if any. -/
def fromRepr : Nat → Option PacketTypeEnum
  | 0 => some .All
  | 1 => some .Arp
  | 2 => some .Tcp
  | 3 => some .Udp
  | 4 => some .Icmp
  | 5 => some .Icmp6
  | _ => none

/-- Model of `PacketTypeEnum::previous`: `current_index.saturating_sub(1)` then
`from_repr(..).unwrap_or(*self)`.  (`Nat` subtraction is saturating.) -/
def previous (p : PacketTypeEnum) : PacketTypeEnum :=
  (fromRepr (p.toIdx - 1)).getD p

/-- Model of `PacketTypeEnum::next`: `current_index.saturating_add(1)` then
`from_repr(..).unwrap_or(*self)`. -/
def next (p : PacketTypeEnum) : PacketTypeEnum :=
  (fromRepr (p.toIdx + 1)).getD p

end PacketTypeEnum

/-- pnet `MacAddr`: six octets. -/
structure MacAddr where
  a : Nat
  b : Nat
  c : Nat
  d : Nat
  e : Nat
  f : Nat
deriving DecidableEq, Repr

/-- pnet `Ipv4Addr`: four octets. -/
structure Ipv4Addr where
  a : Nat
  b : Nat
  c : Nat
  d : Nat
deriving DecidableEq, Repr

/-- Model of `std::net::IpAddr`, kept abstract: the only operation the dissectors
apply to an already-parsed `IpAddr` is `Display`, so it is carried as its
rendered form. -/
structure IpAddr where
  render : String
deriving DecidableEq, Repr

/-- Lowercase hexadecimal rendering of one octet (pnet's `MacAddr`
`Display` prints each octet as two lowercase hex digits). -/
def hexOctet (n : Nat) : String :=
  let digit := fun (d : Nat) =>
    String.mk [(Nat.toDigits 16 d).getLastD ' ']
  digit (n / 16 % 16) ++ digit (n % 16)

/-- pnet `MacAddr` `Display`: `aa:bb:cc:dd:ee:ff`. -/
def MacAddr.render (m : MacAddr) : String :=
  hexOctet m.a ++ ":" ++ hexOctet m.b ++ ":" ++ hexOctet m.c ++ ":" ++
    hexOctet m.d ++ ":" ++ hexOctet m.e ++ ":" ++ hexOctet m.f

/-- Model of `Ipv4Addr` `Display`: dotted quad. -/
def Ipv4Addr.render (ip : Ipv4Addr) : String :=
  toString ip.a ++ "." ++ toString ip.b ++ "." ++ toString ip.c ++ "." ++ toString ip.d

/-- Model of `enums.rs`: `UDPPacketInfo` (plus the `raw_str` field filled in by
`PacketDump::handle_udp_packet`). -/
structure UDPPacketInfo where
  interface_name : String
  source : IpAddr
  source_port : Nat
  destination : IpAddr
  destination_port : Nat
  length : Nat
  raw_str : String
deriving DecidableEq, Repr

/-- Model of `enums.rs`: `TCPPacketInfo` (plus `raw_str`). -/
structure TCPPacketInfo where
  interface_name : String
  source : IpAddr
  source_port : Nat
  destination : IpAddr
  destination_port : Nat
  length : Nat
  raw_str : String
deriving DecidableEq, Repr

/-- Model of `enums.rs`: `ARPPacketInfo` (plus `raw_str`).  `operation` is the u16
carried by pnet's `ArpOperation`. -/
structure ARPPacketInfo where
  interface_name : String
  source_mac : MacAddr
  source_ip : Ipv4Addr
  destination_mac : MacAddr
  destination_ip : Ipv4Addr
  operation : Nat
  raw_str : String
deriving DecidableEq, Repr

/-- Model of `enums.rs`: `ICMPPacketInfo` (plus `raw_str`).  `icmp_type` is the u8
carried by pnet's `IcmpType`. -/
structure ICMPPacketInfo where
  interface_name : String
  source : IpAddr
  destination : IpAddr
  seq : Nat
  id : Nat
  icmp_type : Nat
  raw_str : String
deriving DecidableEq, Repr

/-- Model of `enums.rs`: `ICMP6PacketInfo` (plus `raw_str`).  `icmp_type` is the u8
carried by pnet's `Icmpv6Type`. -/
structure ICMP6PacketInfo where
  interface_name : String
  source : IpAddr
  destination : IpAddr
  icmp_type : Nat
  raw_str : String
deriving DecidableEq, Repr

/-- Model of `enums.rs`: `PacketsInfoTypesEnum` — the closed sum of typed packet
records. -/
inductive PacketsInfoTypesEnum
  | Arp (info : ARPPacketInfo)
  | Tcp (info : TCPPacketInfo)
  | Udp (info : UDPPacketInfo)
  | Icmp (info : ICMPPacketInfo)
  | Icmp6 (info : ICMP6PacketInfo)
deriving DecidableEq, Repr

/-- Model of `packetdump.rs`: `ArpPacketData` — the side-channel notification sent
as `Action::ArpRecieve`. -/
structure ArpPacketData where
  sender_mac : MacAddr
  sender_ip : Ipv4Addr
  target_mac : MacAddr
  target_ip : Ipv4Addr
deriving DecidableEq, Repr

/-- Model of `packetdump.rs`: `MAX_PACKET_HISTORY` — the fixed capacity of each
history bucket. -/
def MAX_PACKET_HISTORY : Nat := 1000

/-- Modelled from the spec: `MaxSizeVec` lives in `src/utils.rs`, which is
not among the provided sources (only its construction and `push`/`get_deque`
call sites in `packetdump.rs` are).  Spec §4.3: "A simple fixed-capacity
FIFO … Push is O(1); when at capacity it drops the eldest.  Capacity is set
at construction and immutable."  The backing deque is modelled as a list,
front = eldest. -/
structure MaxSizeVec (α : Type) where
  capacity : Nat
  data : List α
deriving DecidableEq, Repr

namespace MaxSizeVec

/-- Modelled from the spec: `MaxSizeVec::new(max_size)` — empty contents,
capacity fixed at construction. -/
def new (α : Type) (capacity : Nat) : MaxSizeVec α :=
  { capacity := capacity, data := [] }

/-- Modelled from the spec: `MaxSizeVec::push` — when at capacity the
eldest element is dropped, then the new element is appended at the back. -/
def push {α : Type} (v : MaxSizeVec α) (x : α) : MaxSizeVec α :=
  { v with
    data := (if v.data.length = v.capacity then v.data.tail else v.data) ++ [x] }

/-- Folding `push` over a list of elements, oldest first. -/
def pushAll {α : Type} (v : MaxSizeVec α) (l : List α) : MaxSizeVec α :=
  l.foldl push v

end MaxSizeVec



/-- Model of `packetdump.rs`: the `PacketDump` component state.  Thread-world state
is embedded explicitly: `alive` is the list of ids of spawned capture
workers that have not yet observed `dump_stop = true` and exited
(`t_logic`'s loop exits only on that observation); `loop_thread` holds the
id of the worker whose `JoinHandle` the component currently retains;
`next_id` numbers spawned workers.  `has_tx` is `action_tx.is_some()`;
`active_interface` is an opaque interface id.  The `is_finished()` test on
a handle for worker `w` is `w ∉ alive`.  `selected` is
`table_state.selected()`; `scrollbar_content`/`scrollbar_pos` carry the
scrollbar state. -/
structure PDState where
  active_tab : TabsEnum
  has_tx : Bool
  loop_thread : Option Nat
  dump_paused : Bool
  dump_stop : Bool
  active_interface : Option Nat
  selected : Option Nat
  scrollbar_content : Nat
  scrollbar_pos : Nat
  packet_type : PacketTypeEnum
  input : String
  mode : Mode
  filter_str : String
  changed_interface : Bool
  arp_packets : MaxSizeVec (Nat × PacketsInfoTypesEnum)
  udp_packets : MaxSizeVec (Nat × PacketsInfoTypesEnum)
  tcp_packets : MaxSizeVec (Nat × PacketsInfoTypesEnum)
  icmp_packets : MaxSizeVec (Nat × PacketsInfoTypesEnum)
  icmp6_packets : MaxSizeVec (Nat × PacketsInfoTypesEnum)
  all_packets : MaxSizeVec (Nat × PacketsInfoTypesEnum)
  alive : List Nat
  next_id : Nat

namespace PDState

/-- Model of `PacketDump::new`. -/
def new : PDState where
  active_tab := .Discovery
  has_tx := false
  loop_thread := none
  dump_paused := false
  dump_stop := false
  active_interface := none
  selected := some 0
  scrollbar_content := 0
  scrollbar_pos := 0
  packet_type := .All
  input := ""
  mode := .Normal
  filter_str := ""
  changed_interface := false
  arp_packets := MaxSizeVec.new _ MAX_PACKET_HISTORY
  udp_packets := MaxSizeVec.new _ MAX_PACKET_HISTORY
  tcp_packets := MaxSizeVec.new _ MAX_PACKET_HISTORY
  icmp_packets := MaxSizeVec.new _ MAX_PACKET_HISTORY
  icmp6_packets := MaxSizeVec.new _ MAX_PACKET_HISTORY
  all_packets := MaxSizeVec.new _ MAX_PACKET_HISTORY
  alive := []
  next_id := 0

/-- Model of `Component::register_action_handler`: stores the action sender. -/
def register_action_handler (s : PDState) : PDState :=
  { s with has_tx := true }

/-- Model of `PacketDump::get_array_by_packet_type`, as the bucket selector. -/
def bucket (s : PDState) : PacketTypeEnum → MaxSizeVec (Nat × PacketsInfoTypesEnum)
  | .Arp => s.arp_packets
  | .Tcp => s.tcp_packets
  | .Udp => s.udp_packets
  | .Icmp => s.icmp_packets
  | .Icmp6 => s.icmp6_packets
  | .All => s.all_packets

/-- Model of `PacketDump::start_loop`: spawn a worker only if no handle is held and
both `action_tx` and `active_interface` are present.  The spawned thread
shares the component's `dump_stop` flag. -/
def start_loop (s : PDState) : PDState :=
  match s.loop_thread with
  | some _ => s
  | none =>
    if s.has_tx then
      match s.active_interface with
      | none => s
      | some _ =>
        { s with
          loop_thread := some s.next_id
          alive := s.alive ++ [s.next_id]
          next_id := s.next_id + 1 }
    else s

/-- Model of `PacketDump::restart_loop`: store `true` into `dump_stop`, then poll the
taken handle for up to 1 s.  `finishedInTime` abstracts whether the worker
observes the stop flag and exits within that bound; if the handle was
already finished it is joined; on timeout the handle is stored back. -/
def restart_loop (s : PDState) (finishedInTime : Bool) : PDState :=
  let s := { s with dump_stop := true }
  match s.loop_thread with
  | none => s
  | some lt =>
    if lt ∈ s.alive then
      if finishedInTime then
        { s with loop_thread := none, alive := s.alive.erase lt }
      else s
    else
      { s with loop_thread := none }

/-- The head of `PacketDump::update`: when `changed_interface` is set,
restart the capture thread once the previous one has finished (clearing
`dump_stop` before the new spawn); with no handle held, clear the flag and
start immediately. -/
def checkChangedInterface (s : PDState) : PDState :=
  if s.changed_interface then
    match s.loop_thread with
    | some lt =>
      if lt ∈ s.alive then s
      else
        { ({ s with loop_thread := none, dump_stop := false }).start_loop with
          changed_interface := false }
    | none =>
      { ({ s with dump_stop := false }).start_loop with
        changed_interface := false }
  else s

/-- A capture worker observing `dump_stop = true` and exiting its loop
(`t_logic`'s only non-error exit).  A worker whose shared stop flag is
`false` cannot exit. -/
def workerExit (s : PDState) (id : Nat) : PDState :=
  if s.dump_stop ∧ id ∈ s.alive then
    { s with alive := s.alive.erase id }
  else s

/-- Model of `PacketDump::set_scrollbar_height`. -/
def set_scrollbar_height (s : PDState) : PDState :=
  let logs_len := (s.bucket s.packet_type).data.length
  if logs_len > 0 then
    { s with scrollbar_content := logs_len - 1 }
  else s

/-- Model of `PacketDump::previous_in_table`. -/
def previous_in_table (s : PDState) : PDState :=
  let index :=
    match s.selected with
    | some index =>
      let logs_len := (s.bucket s.packet_type).data.length
      if index = 0 then
        if logs_len > 0 then logs_len - 1 else 0
      else index - 1
    | none => 0
  { s with selected := some index, scrollbar_pos := index }

/-- Model of `PacketDump::next_in_table`. -/
def next_in_table (s : PDState) : PDState :=
  let index :=
    match s.selected with
    | some index =>
      let logs := (s.bucket s.packet_type).data
      if logs.isEmpty ∨ index ≥ logs.length - 1 then 0 else index + 1
    | none => 0
  { s with selected := some index, scrollbar_pos := index }

/-- The `Action::PacketDump` branch body of `PacketDump::update`: push the
timed record into the bucket matching its kind (`All` falls into the
wildcard arm and is pushed nowhere), then always into `all_packets`. -/
def pushPacket (s : PDState) (time : Nat) (packet : PacketsInfoTypesEnum)
    (packet_type : PacketTypeEnum) : PDState :=
  let s :=
    match packet_type with
    | .Tcp => { s with tcp_packets := s.tcp_packets.push (time, packet) }
    | .Arp => { s with arp_packets := s.arp_packets.push (time, packet) }
    | .Udp => { s with udp_packets := s.udp_packets.push (time, packet) }
    | .Icmp => { s with icmp_packets := s.icmp_packets.push (time, packet) }
    | .Icmp6 => { s with icmp6_packets := s.icmp6_packets.push (time, packet) }
    | _ => s
  { s with all_packets := s.all_packets.push (time, packet) }

end PDState

/-- The actions `PacketDump::update` inspects (`action.rs` variants it
matches on). -/
inductive PDAction
  | tabChange (tab : TabsEnum)
  | activeInterface (iface : Nat)
  | up
  | down
  | left
  | right
  | dumpToggle
  | modeChange (mode : Mode)
  | clear
  | packetDump (time : Nat) (packet : PacketsInfoTypesEnum)
      (packet_type : PacketTypeEnum)
deriving DecidableEq, Repr

namespace PDState

/-- Model of `PacketDump::update`, stage by stage in source order: the
`changed_interface` check, the `TabChange` branch, the `ActiveInterface`
branch, the Packets-tab-only branches (`Up`/`Down`/`Left`/`Right`/
`DumpToggle`/`ModeChange`/`Clear`), and finally the `PacketDump` branch
gated on `!dump_paused`.  `finishedInTime` abstracts the bounded wait in
`restart_loop`. -/
def update (s : PDState) (action : PDAction) (finishedInTime : Bool) :
    PDState :=
  let s := s.checkChangedInterface
  let s :=
    match action with
    | .tabChange tab => { s with active_tab := tab }
    | _ => s
  let s :=
    match action with
    | .activeInterface iface =>
      let was_none := s.active_interface.isNone
      let s := { s with active_interface := some iface }
      if was_none then s.start_loop
      else ({ s with changed_interface := true }).restart_loop finishedInTime
    | _ => s
  let s :=
    if s.active_tab = .Packets then
      match action with
      | .down => s.next_in_table
      | .up => s.previous_in_table
      | .left =>
        let s := { s with packet_type := s.packet_type.previous }
        let s := s.set_scrollbar_height
        let s := { s with selected := some 0 }
        s.set_scrollbar_height
      | .right =>
        let s := { s with packet_type := s.packet_type.next }
        let s := s.set_scrollbar_height
        let s := { s with selected := some 0 }
        s.set_scrollbar_height
      | .dumpToggle =>
        if s.dump_paused then
          ({ s with dump_paused := false }).start_loop
        else
          -- pause: the handle is dropped; `dump_stop` is NOT set
          { s with dump_paused := true, loop_thread := none }
      | .modeChange mode =>
        -- also try-sends `Action::AppModeChange(mode)`
        { s with mode := mode }
      | .clear => { s with input := "", filter_str := "" }
      | _ => s
    else s
  if s.dump_paused then s
  else
    match action with
    | .packetDump time packet packet_type => s.pushPacket time packet packet_type
    | _ => s

/-- Processing a list of actions in order (all with the same
`finishedInTime` abstraction for restart waits). -/
def applySeq (s : PDState) (actions : List PDAction) : PDState :=
  actions.foldl (fun s a => s.update a true) s

/-- Model of `Component::shutdown` for `PacketDump`: set `dump_stop`, then wait up
to 2 s for the retained handle. -/
def shutdown (s : PDState) (finishedInTime : Bool) : PDState :=
  let s := { s with dump_stop := true }
  match s.loop_thread with
  | none => s
  | some lt =>
    if lt ∈ s.alive then
      if finishedInTime then
        { s with loop_thread := none, alive := s.alive.erase lt }
      else { s with loop_thread := none }
    else
      { s with loop_thread := none }

end PDState

/-! ## Dissectors over raw bytes (pnet packet views modelled on byte lists) -/

/-- Byte access used by the pnet getter models; pnet getters only read
inside the length-checked view, so the out-of-range default is never hit
on a successfully constructed packet. -/
def byteAt (p : List Nat) (i : Nat) : Nat := p.getD i 0

/-- Six consecutive octets starting at `i`, as a `MacAddr`. -/
def macAt (p : List Nat) (i : Nat) : MacAddr :=
  ⟨byteAt p i, byteAt p (i + 1), byteAt p (i + 2), byteAt p (i + 3),
    byteAt p (i + 4), byteAt p (i + 5)⟩

/-- Four consecutive octets starting at `i`, as an `Ipv4Addr`. -/
def ipv4At (p : List Nat) (i : Nat) : Ipv4Addr :=
  ⟨byteAt p i, byteAt p (i + 1), byteAt p (i + 2), byteAt p (i + 3)⟩

/-- Big-endian u16 at offset `i`. -/
def u16At (p : List Nat) (i : Nat) : Nat := byteAt p i * 256 + byteAt p (i + 1)

/-- pnet `IcmpTypes::EchoReply` (ICMP type 0). -/
def IcmpTypes_EchoReply : Nat := 0

/-- pnet `IcmpTypes::EchoRequest` (ICMP type 8). -/
def IcmpTypes_EchoRequest : Nat := 8

namespace IcmpPacket

/-- pnet `IcmpPacket::new`: succeeds iff the buffer holds at least the
4-byte ICMP header (type, code, checksum). -/
def new (packet : List Nat) : Option (List Nat) :=
  if 4 ≤ packet.length then some packet else none

/-- pnet `IcmpPacket::get_icmp_type`: byte 0. -/
def get_icmp_type (p : List Nat) : Nat := byteAt p 0

end IcmpPacket

namespace EchoPacket

/-- pnet `echo_reply::EchoReplyPacket::new` / `echo_request::EchoRequestPacket::new`:
succeed iff the buffer holds the 8-byte echo header (type, code, checksum,
identifier, sequence number). -/
def new (packet : List Nat) : Option (List Nat) :=
  if 8 ≤ packet.length then some packet else none

/-- Model of `get_identifier`: big-endian u16 at offset 4. -/
def get_identifier (p : List Nat) : Nat := u16At p 4

/-- Model of `get_sequence_number`: big-endian u16 at offset 6. -/
def get_sequence_number (p : List Nat) : Nat := u16At p 6

end EchoPacket

/-- Model of `PacketDump::handle_icmp_packet`, with the `try_send` of
`Action::PacketDump(now, rec, kind)` modelled as returning
`some (rec, kind)` (and `none` when no record is emitted).  `source` and
`destination` were already parsed by the IPv4 layer and are carried
opaquely. -/
def handle_icmp_packet (interface_name : String) (source destination : IpAddr)
    (packet : List Nat) : Option (PacketsInfoTypesEnum × PacketTypeEnum) :=
  match IcmpPacket.new packet with
  | none => none
  | some icmp_packet =>
    if IcmpPacket.get_icmp_type icmp_packet = IcmpTypes_EchoReply then
      match EchoPacket.new packet with
      | none => none
      | some echo_reply_packet =>
        let seq := EchoPacket.get_sequence_number echo_reply_packet
        let id := EchoPacket.get_identifier echo_reply_packet
        let raw_str := "[" ++ interface_name ++ "]: ICMP echo reply "
          ++ source.render ++ " -> " ++ destination.render
          ++ " (seq=" ++ toString seq ++ ", id=" ++ toString id ++ ")"
        some (.Icmp
          { interface_name := interface_name
            source := source
            destination := destination
            seq := seq
            id := id
            icmp_type := IcmpTypes_EchoReply
            raw_str := raw_str }, .Icmp)
    else if IcmpPacket.get_icmp_type icmp_packet = IcmpTypes_EchoRequest then
      match EchoPacket.new packet with
      | none => none
      | some echo_request_packet =>
        let seq := EchoPacket.get_sequence_number echo_request_packet
        let id := EchoPacket.get_identifier echo_request_packet
        let raw_str := "[" ++ interface_name ++ "]: ICMP echo request "
          ++ source.render ++ " -> " ++ destination.render
          ++ " (seq=" ++ toString seq ++ ", id=" ++ toString id ++ ")"
        some (.Icmp
          { interface_name := interface_name
            source := source
            destination := destination
            seq := seq
            id := id
            icmp_type := IcmpTypes_EchoRequest
            raw_str := raw_str }, .Icmp)
    else none

namespace EthernetPacket

/-- pnet `EthernetPacket::get_destination`: octets 0..5 of the frame. -/
def get_destination (frame : List Nat) : MacAddr := macAt frame 0

/-- pnet `EthernetPacket::get_source`: octets 6..11 of the frame. -/
def get_source (frame : List Nat) : MacAddr := macAt frame 6

/-- pnet `EthernetPacket::payload`: everything after the 14-byte header. -/
def payload (frame : List Nat) : List Nat := frame.drop 14

end EthernetPacket

namespace ArpPacket

/-- pnet `ArpPacket::new`: succeeds iff the buffer holds the 28-byte ARP
packet (hardware/protocol types and lengths, operation, two MAC/IPv4
address pairs). -/
def new (packet : List Nat) : Option (List Nat) :=
  if 28 ≤ packet.length then some packet else none

/-- Model of `get_operation`: big-endian u16 at offset 6. -/
def get_operation (p : List Nat) : Nat := u16At p 6

/-- Model of `get_sender_hw_addr`: octets 8..13. -/
def get_sender_hw_addr (p : List Nat) : MacAddr := macAt p 8

/-- Model of `get_sender_proto_addr`: octets 14..17. -/
def get_sender_proto_addr (p : List Nat) : Ipv4Addr := ipv4At p 14

/-- Model of `get_target_hw_addr`: octets 18..23. -/
def get_target_hw_addr (p : List Nat) : MacAddr := macAt p 18

/-- Model of `get_target_proto_addr`: octets 24..27. -/
def get_target_proto_addr (p : List Nat) : Ipv4Addr := ipv4At p 24

end ArpPacket

/-- Debug rendering of pnet's `ArpOperation(u16)` newtype. -/
def arpOperationDebug (op : Nat) : String :=
  "ArpOperation(" ++ toString op ++ ")"

/-- Model of `PacketDump::handle_arp_packet` over a raw Ethernet frame.  On a
successful ARP parse the function try-sends `Action::ArpRecieve(data)`
(MACs and IPs from the ARP payload's hardware/protocol address fields) and
then `Action::PacketDump(now, Arp(info), Arp)` (MACs from the Ethernet
header, IPs from the ARP payload); both sends are modelled by the returned
pair. -/
def handle_arp_packet (interface_name : String) (frame : List Nat) :
    Option (ArpPacketData × PacketsInfoTypesEnum × PacketTypeEnum) :=
  match ArpPacket.new (EthernetPacket.payload frame) with
  | none => none
  | some header =>
    let data : ArpPacketData :=
      { sender_mac := ArpPacket.get_sender_hw_addr header
        sender_ip := ArpPacket.get_sender_proto_addr header
        target_mac := ArpPacket.get_target_hw_addr header
        target_ip := ArpPacket.get_target_proto_addr header }
    let raw_str := "[" ++ interface_name ++ "]: ARP packet: "
      ++ (EthernetPacket.get_source frame).render
      ++ "(" ++ (ArpPacket.get_sender_proto_addr header).render ++ ") > "
      ++ (EthernetPacket.get_destination frame).render
      ++ "(" ++ (ArpPacket.get_target_proto_addr header).render ++ "); operation: "
      ++ arpOperationDebug (ArpPacket.get_operation header)
    some (data, .Arp
      { interface_name := interface_name
        source_mac := EthernetPacket.get_source frame
        source_ip := ArpPacket.get_sender_proto_addr header
        destination_mac := EthernetPacket.get_destination frame
        destination_ip := ArpPacket.get_target_proto_addr header
        operation := ArpPacket.get_operation header
        raw_str := raw_str }, .Arp)

/-! ## Export component (`export.rs`) -/

/-- Model of `export.rs`: the `Export` component state (`home_dir`, the
`export_done` confirmation flag and the `_export_failed` flag). -/
structure ExportState where
  has_tx : Bool
  home_dir : String
  export_done : Bool
  export_failed : Bool
deriving DecidableEq, Repr

/-- Model of `Export::new`. -/
def ExportState.new : ExportState where
  has_tx := false
  home_dir := ""
  export_done := false
  export_failed := false

/-- The outcomes of the seven CSV writes performed on `ExportData`
(`write_discovery`, `write_ports`, and `write_packets` for arp, tcp, udp,
icmp, icmp6): `true` = the corresponding `Result` was `Ok`. -/
structure WriteOutcomes where
  discovery : Bool
  ports : Bool
  arp : Bool
  tcp : Bool
  udp : Bool
  icmp : Bool
  icmp6 : Bool
deriving DecidableEq, Repr

/-- All seven CSV writes succeeded. -/
def WriteOutcomes.allOk (w : WriteOutcomes) : Bool :=
  w.discovery && w.ports && w.arp && w.tcp && w.udp && w.icmp && w.icmp6

/-- The actions `Export::update` inspects; `exportData` carries the
outcomes of the filesystem writes it performs. -/
inductive ExportAction
  | export
  | exportData (writes : WriteOutcomes)
  | other
deriving DecidableEq, Repr

/-- Model of `Export::update`: on `ExportData`, each write's `Result` is bound to
`_` (discarded), and `export_done` is then set unconditionally; `Export`
and all other actions are no-ops. -/
def ExportState.update (s : ExportState) (action : ExportAction) :
    ExportState :=
  match action with
  | .export => s
  | .exportData _writes => { s with export_done := true }
  | .other => s

/-- Model of `Export::draw`: the footer confirmation line
(`"|exported: <home_dir>/*|"`) is rendered iff `export_done` is set. -/
def ExportState.drawsFooter (s : ExportState) : Bool := s.export_done

/-! ## Concrete fixtures used by witnesses and counterexamples -/

/-- A `PacketDump` component right after construction and
`register_action_handler` (the app wires the sender at startup). -/
def pdStart : PDState := PDState.new.register_action_handler

/-- A `PacketDump` component in the Packets tab (a `TabChange` away from
construction). -/
def pdPacketsTab : PDState := pdStart.update (.tabChange .Packets) true

/-- A running capture: tab switched to Packets, then the first
`ActiveInterface` spawns worker 0. -/
def pdRunning : PDState :=
  PDState.applySeq pdStart [.tabChange .Packets, .activeInterface 0]

/-- The C1 action trace: enter the Packets tab, select an interface (first
worker spawns), pause with `DumpToggle`, unpause with `DumpToggle`. -/
def c1Actions : List PDAction :=
  [.tabChange .Packets, .activeInterface 0, .dumpToggle, .dumpToggle]

/-- A sample ARP record used as generic bucket content. -/
def sampleArp : PacketsInfoTypesEnum :=
  .Arp
    { interface_name := "eth0"
      source_mac := ⟨0, 0, 0, 0, 0, 1⟩
      source_ip := ⟨192, 168, 1, 10⟩
      destination_mac := ⟨255, 255, 255, 255, 255, 255⟩
      destination_ip := ⟨192, 168, 1, 1⟩
      operation := 1
      raw_str := "arp" }

/-- A sample TCP record. -/
def sampleTcp : PacketsInfoTypesEnum :=
  .Tcp
    { interface_name := "eth0"
      source := ⟨"10.0.0.1"⟩
      source_port := 5000
      destination := ⟨"10.0.0.2"⟩
      destination_port := 80
      length := 60
      raw_str := "tcp" }

/-- All seven CSV writes failing (e.g. the target directory is not
writable). -/
def exportAllFail : WriteOutcomes :=
  { discovery := false, ports := false, arp := false, tcp := false
    udp := false, icmp := false, icmp6 := false }

/-- An ICMP destination-unreachable packet: type 3, code 0, zero checksum,
8 bytes total. -/
def icmpType3Packet : List Nat := [3, 0, 0, 0, 0, 0, 0, 0]

/-- An ICMP echo-request packet: type 8, code 0, zero checksum,
identifier 42 (bytes 0,42), sequence number 7 (bytes 0,7). -/
def icmpEchoReqPacket : List Nat := [8, 0, 0, 0, 0, 42, 0, 7]

/-- An Ethernet ARP frame whose Ethernet source/destination MACs
(02:02:02:02:02:02 / 01:01:01:01:01:01) differ from the ARP payload's
sender/target hardware addresses (09:09:09:09:09:09 / 00:00:00:00:00:00):
14-byte Ethernet header (ethertype 0x0806) followed by a 28-byte ARP
packet (op=1, sender ip 192.168.1.10, target ip 192.168.1.1). -/
def arpMismatchFrame : List Nat :=
  [1, 1, 1, 1, 1, 1,
   2, 2, 2, 2, 2, 2,
   8, 6,
   0, 1, 8, 0, 6, 4, 0, 1,
   9, 9, 9, 9, 9, 9,
   192, 168, 1, 10,
   0, 0, 0, 0, 0, 0,
   192, 168, 1, 1]

/-- The value `handle_arp_packet` produces on `arpMismatchFrame` (with a
dummy fallback that is never used since the parse succeeds). -/
def arpMismatchResult : ArpPacketData × PacketsInfoTypesEnum × PacketTypeEnum :=
  (handle_arp_packet "eth0" arpMismatchFrame).getD
    (⟨⟨0,0,0,0,0,0⟩, ⟨0,0,0,0⟩, ⟨0,0,0,0,0,0⟩, ⟨0,0,0,0⟩⟩, sampleArp, .Arp)

/-- The value `handle_icmp_packet` produces on `icmpEchoReqPacket` (the
fallback is never used since the dissection succeeds). -/
def icmpEchoReqResult : PacketsInfoTypesEnum × PacketTypeEnum :=
  (handle_icmp_packet "eth0" ⟨"10.0.0.1"⟩ ⟨"10.0.0.2"⟩ icmpEchoReqPacket).getD
    (sampleTcp, .All)

/-- The `ARPPacketInfo` inside `arpMismatchResult` (the fallback arm is
never taken). -/
def arpMismatchInfo : ARPPacketInfo :=
  match arpMismatchResult.2.1 with
  | .Arp info => info
  | _ =>
    { interface_name := "", source_mac := ⟨0,0,0,0,0,0⟩
      source_ip := ⟨0,0,0,0⟩, destination_mac := ⟨0,0,0,0,0,0⟩
      destination_ip := ⟨0,0,0,0⟩, operation := 0, raw_str := "" }

namespace MaxSizeVec

theorem push_capacity {α : Type} (v : MaxSizeVec α) (x : α) :
    (v.push x).capacity = v.capacity := rfl

theorem push_of_lt {α : Type} (v : MaxSizeVec α) (x : α)
    (h : v.data.length < v.capacity) : (v.push x).data = v.data ++ [x] := by
  simp [push, Nat.ne_of_lt h]

theorem push_of_eq {α : Type} (v : MaxSizeVec α) (x : α)
    (h : v.data.length = v.capacity) : (v.push x).data = v.data.tail ++ [x] := by
  simp [push, h]

theorem push_length_le {α : Type} (v : MaxSizeVec α) (x : α)
    (hpos : 0 < v.capacity) (h : v.data.length ≤ v.capacity) :
    (v.push x).data.length ≤ v.capacity := by
  rcases Nat.lt_or_eq_of_le h with hlt | heq
  · rw [push_of_lt v x hlt]
    simpa using hlt
  · rw [push_of_eq v x heq]
    have htail : v.data.tail.length = v.data.length - 1 := List.length_tail v.data
    simp only [List.length_append, List.length_cons, List.length_nil, htail]
    omega

/-- The contents after folding pushes into a vector that is within
capacity: the combined stream keeps only its last `capacity` elements. -/
theorem pushAll_data {α : Type} (l : List α) (v : MaxSizeVec α)
    (hpos : 0 < v.capacity) (hlen : v.data.length ≤ v.capacity) :
    (v.pushAll l).data =
      (v.data ++ l).drop (v.data.length + l.length - v.capacity) ∧
    (v.pushAll l).capacity = v.capacity := by
  induction l generalizing v with
  | nil =>
    refine ⟨?_, rfl⟩
    have hz : v.data.length - v.capacity = 0 := by omega
    simp [pushAll, hz]
  | cons x t ih =>
    have step : v.pushAll (x :: t) = (v.push x).pushAll t := rfl
    rcases Nat.lt_or_eq_of_le hlen with hlt | heq
    · have hdata : (v.push x).data = v.data ++ [x] := push_of_lt v x hlt
      have hlen' : (v.push x).data.length ≤ (v.push x).capacity := by
        rw [hdata, push_capacity]
        simp only [List.length_append, List.length_cons, List.length_nil]
        omega
      obtain ⟨h1, h2⟩ := ih (v.push x) hpos hlen'
      rw [step]
      refine ⟨?_, by rw [h2, push_capacity]⟩
      rw [h1, hdata, push_capacity]
      have hidx : (v.data ++ [x]).length + t.length - v.capacity
          = v.data.length + (x :: t).length - v.capacity := by
        simp only [List.length_append, List.length_cons, List.length_nil]
        omega
      rw [hidx, List.append_assoc, List.singleton_append]
    · -- at capacity: the eldest is dropped
      rcases hv : v.data with _ | ⟨y, ys⟩
      · rw [hv] at heq
        simp at heq
        omega
      · have hys : ys.length + 1 = v.capacity := by
          rw [← heq, hv]; simp
        have hdata : (v.push x).data = ys ++ [x] := by
          rw [push_of_eq v x heq, hv]
          rfl
        have hlen' : (v.push x).data.length ≤ (v.push x).capacity := by
          rw [hdata, push_capacity]
          simp only [List.length_append, List.length_cons, List.length_nil]
          omega
        obtain ⟨h1, h2⟩ := ih (v.push x) hpos hlen'
        rw [step]
        refine ⟨?_, by rw [h2, push_capacity]⟩
        rw [h1, hdata, push_capacity]
        have hidx : (ys ++ [x]).length + t.length - v.capacity
            = t.length := by
          simp only [List.length_append, List.length_cons, List.length_nil]
          omega
        have hidx2 : (y :: ys).length + (x :: t).length - v.capacity
            = t.length + 1 := by
          simp only [List.length_cons]
          omega
        rw [hidx, hidx2]
        simp only [List.cons_append, List.drop_succ_cons]
        rw [List.append_assoc, List.singleton_append]

end MaxSizeVec

namespace PDState

/-! Projection lemmas: the lifecycle helpers touch only the lifecycle
fields, never the UI fields or the history buckets. -/

/-- Frame lemma: `start_loop` only ever changes `loop_thread`, `alive` and `next_id`
(structure eta closes the identity branches). -/
theorem start_loop_frame (s : PDState) :
    ∃ lt al ni, s.start_loop =
      { s with loop_thread := lt, alive := al, next_id := ni } := by
  unfold start_loop
  split
  · exact ⟨s.loop_thread, s.alive, s.next_id, rfl⟩
  · split
    · split
      · exact ⟨s.loop_thread, s.alive, s.next_id, rfl⟩
      · exact ⟨some s.next_id, s.alive ++ [s.next_id], s.next_id + 1, rfl⟩
    · exact ⟨s.loop_thread, s.alive, s.next_id, rfl⟩

/-- The `changed_interface` check only ever changes `loop_thread`,
`dump_stop`, `alive`, `next_id` and `changed_interface`. -/
theorem checkCI_frame (s : PDState) :
    ∃ lt stop al ni ci, s.checkChangedInterface =
      { s with loop_thread := lt, dump_stop := stop, alive := al,
               next_id := ni, changed_interface := ci } := by
  unfold checkChangedInterface
  split
  · split
    · split
      · exact ⟨s.loop_thread, s.dump_stop, s.alive, s.next_id,
          s.changed_interface, rfl⟩
      · obtain ⟨lt', al', ni', h⟩ :=
          start_loop_frame { s with loop_thread := none, dump_stop := false }
        rw [h]
        exact ⟨lt', false, al', ni', false, rfl⟩
    · obtain ⟨lt', al', ni', h⟩ :=
        start_loop_frame { s with dump_stop := false }
      rw [h]
      exact ⟨lt', false, al', ni', false, rfl⟩
  · exact ⟨s.loop_thread, s.dump_stop, s.alive, s.next_id,
      s.changed_interface, rfl⟩

theorem checkCI_of_not_changed (s : PDState) (h : s.changed_interface = false) :
    s.checkChangedInterface = s := by
  unfold checkChangedInterface
  simp [h]

theorem pushPacket_all (s : PDState) (t : Nat) (r : PacketsInfoTypesEnum)
    (k : PacketTypeEnum) :
    (s.pushPacket t r k).all_packets = s.all_packets.push (t, r) := by
  cases k <;> rfl

theorem pushPacket_bucket_self (s : PDState) (t : Nat)
    (r : PacketsInfoTypesEnum) (k : PacketTypeEnum) (hk : k ≠ .All) :
    (s.pushPacket t r k).bucket k = (s.bucket k).push (t, r) := by
  cases k with
  | All => exact absurd rfl hk
  | Arp => rfl
  | Tcp => rfl
  | Udp => rfl
  | Icmp => rfl
  | Icmp6 => rfl

theorem pushPacket_bucket_other (s : PDState) (t : Nat)
    (r : PacketsInfoTypesEnum) (k k' : PacketTypeEnum) (hne : k' ≠ k)
    (hk' : k' ≠ .All) :
    (s.pushPacket t r k).bucket k' = s.bucket k' := by
  cases k <;> cases k' <;>
    first
    | rfl
    | exact absurd rfl hne
    | exact absurd rfl hk'

theorem pushPacket_flags (s : PDState) (t : Nat) (r : PacketsInfoTypesEnum)
    (k : PacketTypeEnum) :
    (s.pushPacket t r k).dump_paused = s.dump_paused ∧
    (s.pushPacket t r k).changed_interface = s.changed_interface := by
  cases k <;> exact ⟨rfl, rfl⟩

/-- Reduction of `update` on an `Action::PacketDump`: no UI branch matches
it, so (once the `changed_interface` check has run) the whole update is the
pause-gated push. -/
theorem update_packetDump (s : PDState) (t : Nat) (r : PacketsInfoTypesEnum)
    (k : PacketTypeEnum) (b : Bool) :
    s.update (.packetDump t r k) b =
      if s.checkChangedInterface.dump_paused then s.checkChangedInterface
      else s.checkChangedInterface.pushPacket t r k := by
  unfold update
  simp

/-- A pure lifecycle-field rewrite leaves every history bucket as it was. -/
theorem bucket_lifecycle (s : PDState) (lt : Option Nat) (stop : Bool)
    (al : List Nat) (ni : Nat) (ci : Bool) (k : PacketTypeEnum) :
    PDState.bucket
      { s with loop_thread := lt, dump_stop := stop, alive := al,
               next_id := ni, changed_interface := ci } k = s.bucket k := by
  cases k <;> rfl

@[simp]
theorem set_scrollbar_height_packet_type (s : PDState) :
    s.set_scrollbar_height.packet_type = s.packet_type := by
  unfold set_scrollbar_height
  dsimp only
  split <;> rfl

@[simp]
theorem set_scrollbar_height_selected (s : PDState) :
    s.set_scrollbar_height.selected = s.selected := by
  unfold set_scrollbar_height
  dsimp only
  split <;> rfl

@[simp]
theorem set_scrollbar_height_dump_paused (s : PDState) :
    s.set_scrollbar_height.dump_paused = s.dump_paused := by
  unfold set_scrollbar_height
  dsimp only
  split <;> rfl

end PDState

/-- C5: For every `PacketTypeEnum` value `v` that is not at a boundary,
`v.next().previous() == v`; at the boundaries `next` and `previous`
saturate: `Icmp6.next() == Icmp6` and `All.previous() == All`. -/
theorem claim_C5_cycle_law :
    (∀ v : PacketTypeEnum, v ≠ .All → v ≠ .Icmp6 → v.next.previous = v) ∧
    PacketTypeEnum.Icmp6.next = PacketTypeEnum.Icmp6 ∧
    PacketTypeEnum.All.previous = PacketTypeEnum.All := by
  refine ⟨?_, rfl, rfl⟩
  intro v h1 h2
  cases v <;> first | rfl | exact absurd rfl h1 | exact absurd rfl h2

/-- Witness for C5 at the interior value `Tcp`. -/
theorem claim_C5_witness :
    PacketTypeEnum.Tcp.next.previous = PacketTypeEnum.Tcp :=
  claim_C5_cycle_law.1 .Tcp (by decide) (by decide)

/-- C4 (counterexample): in the Packets tab with `packet_type = All`, a
`Left` action leaves `packet_type` at `All` — it does not wrap around to
`Icmp6` — and symmetrically a `Right` action at `Icmp6` stays at `Icmp6`
instead of wrapping to `All`: navigation saturates, it does not cycle. -/
theorem claim_C4_counterexample :
    pdPacketsTab.packet_type = PacketTypeEnum.All ∧
    (pdPacketsTab.update .left true).packet_type = PacketTypeEnum.All ∧
    (pdPacketsTab.update .left true).packet_type ≠ PacketTypeEnum.Icmp6 ∧
    ({ pdPacketsTab with packet_type := .Icmp6 }.update .right true).packet_type
        = PacketTypeEnum.Icmp6 ∧
    ({ pdPacketsTab with packet_type := .Icmp6 }.update .right true).packet_type
        ≠ PacketTypeEnum.All := by
  exact ⟨rfl, rfl, by decide, rfl, by decide⟩

/-- C4 (amended): in the Packets tab, `Left`/`Right` move `packet_type` to
`previous()`/`next()` — which saturate at `All` and `Icmp6` rather than
wrapping — and every `Left`/`Right` resets the table selection to 0. -/
theorem claim_C4_amended (s : PDState) (b : Bool)
    (h : s.active_tab = TabsEnum.Packets) :
    (s.update .left b).packet_type = s.packet_type.previous ∧
    (s.update .left b).selected = some 0 ∧
    (s.update .right b).packet_type = s.packet_type.next ∧
    (s.update .right b).selected = some 0 := by
  obtain ⟨lt, stop, al, ni, ci, hci⟩ := PDState.checkCI_frame s
  unfold PDState.update
  rw [hci]
  simp [h]

/-- Witness for C4 (amended) at a concrete Packets-tab state. -/
theorem claim_C4_amended_witness :
    (pdPacketsTab.update .left true).packet_type
        = pdPacketsTab.packet_type.previous ∧
    (pdPacketsTab.update .left true).selected = some 0 ∧
    (pdPacketsTab.update .right true).packet_type
        = pdPacketsTab.packet_type.next ∧
    (pdPacketsTab.update .right true).selected = some 0 :=
  claim_C4_amended pdPacketsTab true rfl

/-- C3 (counterexample): with all seven CSV writes failing, `ExportData`
still sets `export_done` and the footer confirms the export — `export_done`
is *not* equivalent to the writes having succeeded, and the failure is not
surfaced. -/
theorem claim_C3_counterexample :
    (ExportState.new.update (.exportData exportAllFail)).export_done = true ∧
    exportAllFail.allOk = false ∧
    (ExportState.new.update (.exportData exportAllFail)).drawsFooter = true :=
  ⟨rfl, rfl, rfl⟩

/-- C3 (amended): after an `ExportData` action `export_done` is set
unconditionally — each write's `Result` is discarded, so the flag (and the
footer confirmation it drives) does not depend on the write outcomes, and
the `_export_failed` status flag is left untouched. -/
theorem claim_C3_amended (s : ExportState) (w : WriteOutcomes) :
    (s.update (.exportData w)).export_done = true ∧
    (s.update (.exportData w)).drawsFooter = true ∧
    (s.update (.exportData w)).export_failed = s.export_failed :=
  ⟨rfl, rfl, rfl⟩

/-- C6: every history bucket of a fresh `PacketDump` has capacity
`MAX_PACKET_HISTORY = 1000`, and pushing any `N > 1000` records into one
bucket leaves exactly the last 1000 pushed records, in push order. -/
theorem claim_C6_history_bound :
    (PDState.new.arp_packets.capacity = MAX_PACKET_HISTORY ∧
     PDState.new.udp_packets.capacity = MAX_PACKET_HISTORY ∧
     PDState.new.tcp_packets.capacity = MAX_PACKET_HISTORY ∧
     PDState.new.icmp_packets.capacity = MAX_PACKET_HISTORY ∧
     PDState.new.icmp6_packets.capacity = MAX_PACKET_HISTORY ∧
     PDState.new.all_packets.capacity = MAX_PACKET_HISTORY ∧
     MAX_PACKET_HISTORY = 1000) ∧
    ∀ l : List (Nat × PacketsInfoTypesEnum), 1000 < l.length →
      ((MaxSizeVec.new (Nat × PacketsInfoTypesEnum) MAX_PACKET_HISTORY).pushAll l).data
          = l.drop (l.length - 1000) ∧
      ((MaxSizeVec.new (Nat × PacketsInfoTypesEnum) MAX_PACKET_HISTORY).pushAll l).data.length
          = 1000 := by
  refine ⟨⟨rfl, rfl, rfl, rfl, rfl, rfl, rfl⟩, ?_⟩
  intro l hl
  obtain ⟨hdata, _⟩ :=
    MaxSizeVec.pushAll_data l (MaxSizeVec.new (Nat × PacketsInfoTypesEnum) MAX_PACKET_HISTORY)
      (by decide) (by decide)
  have hd : ((MaxSizeVec.new (Nat × PacketsInfoTypesEnum) MAX_PACKET_HISTORY).pushAll l).data
      = l.drop (l.length - 1000) := by
    rw [hdata]
    simp [MaxSizeVec.new, MAX_PACKET_HISTORY]
  refine ⟨hd, ?_⟩
  rw [hd, List.length_drop]
  omega

/-- C1 evaluated at its failing trace (the claim is FALSE on the code —
`code_bug`): enter the Packets tab, select an interface (worker 0 spawns),
pause via `DumpToggle` (the handle is dropped but `dump_stop` is never
stored `true`), unpause via `DumpToggle` (`start_loop` sees no handle and
spawns worker 1).  Both workers are then alive simultaneously: `alive =
[0, 1]`.  Moreover `dump_stop` is `false` after every prefix of the trace,
so no `workerExit` step is enabled at any point — the double-aliveness is
independent of thread scheduling — and the leaked worker 0 can never exit
even afterwards (`workerExit` is a no-op). -/
theorem claim_C1_two_workers_alive :
    (PDState.applySeq pdStart c1Actions).alive = [0, 1] ∧
    (PDState.applySeq pdStart c1Actions).loop_thread = some 1 ∧
    (PDState.applySeq pdStart c1Actions).dump_stop = false ∧
    (PDState.applySeq pdStart (c1Actions.take 1)).dump_stop = false ∧
    (PDState.applySeq pdStart (c1Actions.take 2)).dump_stop = false ∧
    (PDState.applySeq pdStart (c1Actions.take 3)).dump_stop = false ∧
    pdStart.dump_stop = false ∧
    (PDState.applySeq pdStart c1Actions).workerExit 0
        = PDState.applySeq pdStart c1Actions ∧
    (PDState.applySeq pdStart c1Actions).workerExit 1
        = PDState.applySeq pdStart c1Actions :=
  ⟨rfl, rfl, rfl, rfl, rfl, rfl, rfl, rfl, rfl⟩

/-- C2 evaluated at its failing input (the pause half of the claim is
FALSE on the code — `code_bug`): from a running capture (`pdRunning`:
worker 0 alive, not paused), `DumpToggle` sets `dump_paused` and forgets
the handle, but `dump_stop` stays `false` — no stop is requested, so the
worker cannot observe a stop request and never terminates (`workerExit`
disabled).  The unpause half does hold: a second `DumpToggle` clears
`dump_paused` and requests a start (a fresh worker 1 is spawned). -/
theorem claim_C2_pause_requests_no_stop :
    pdRunning.dump_paused = false ∧
    pdRunning.loop_thread = some 0 ∧
    pdRunning.alive = [0] ∧
    pdRunning.dump_stop = false ∧
    (pdRunning.update .dumpToggle true).dump_paused = true ∧
    (pdRunning.update .dumpToggle true).loop_thread = none ∧
    (pdRunning.update .dumpToggle true).dump_stop = false ∧
    (pdRunning.update .dumpToggle true).alive = [0] ∧
    (pdRunning.update .dumpToggle true).workerExit 0
        = pdRunning.update .dumpToggle true ∧
    ((pdRunning.update .dumpToggle true).update .dumpToggle true).dump_paused
        = false ∧
    ((pdRunning.update .dumpToggle true).update .dumpToggle true).loop_thread
        = some 1 :=
  ⟨rfl, rfl, rfl, rfl, rfl, rfl, rfl, rfl, rfl, rfl, rfl⟩

/-- C8: a `PacketDump(time, rec, kind)` action processed while
`dump_paused` is true changes no history bucket; when not paused, the
record is appended to `all_packets` and (for a protocol kind) to its kind
bucket, all other buckets unchanged. -/
theorem claim_C8_pause_discards (s : PDState) (t : Nat)
    (r : PacketsInfoTypesEnum) (k : PacketTypeEnum) (b : Bool) :
    (s.dump_paused = true →
      ∀ k', (s.update (.packetDump t r k) b).bucket k' = s.bucket k') ∧
    (s.dump_paused = false →
      (s.update (.packetDump t r k) b).all_packets
          = s.all_packets.push (t, r) ∧
      (k ≠ .All →
        (s.update (.packetDump t r k) b).bucket k = (s.bucket k).push (t, r)) ∧
      (∀ k', k' ≠ k → k' ≠ .All →
        (s.update (.packetDump t r k) b).bucket k' = s.bucket k')) := by
  obtain ⟨lt, stop, al, ni, ci, hci⟩ := PDState.checkCI_frame s
  rw [PDState.update_packetDump, hci]
  constructor
  · intro hp k'
    split
    · exact PDState.bucket_lifecycle s lt stop al ni ci k'
    · next hcond =>
      exact absurd (show s.dump_paused = true from hp) hcond
  · intro hp
    split
    · next hcond =>
      have h2 : s.dump_paused = true := hcond
      rw [hp] at h2
      exact absurd h2 (by decide)
    · refine ⟨?_, ?_, ?_⟩
      · rw [PDState.pushPacket_all]
      · intro hk
        rw [PDState.pushPacket_bucket_self _ _ _ _ hk,
          PDState.bucket_lifecycle s lt stop al ni ci k]
      · intro k' hne hk'
        rw [PDState.pushPacket_bucket_other _ _ _ _ _ hne hk',
          PDState.bucket_lifecycle s lt stop al ni ci k']

/-- Witness for C8 at concrete paused/unpaused states. -/
theorem claim_C8_witness :
    ({ PDState.new with dump_paused := true }.update
        (.packetDump 0 sampleArp .Arp) true).bucket .Arp
      = ({ PDState.new with dump_paused := true } : PDState).bucket .Arp ∧
    (PDState.new.update (.packetDump 0 sampleTcp .Tcp) true).all_packets
      = PDState.new.all_packets.push (0, sampleTcp) :=
  ⟨(claim_C8_pause_discards { PDState.new with dump_paused := true }
      0 sampleArp .Arp true).1 rfl .Arp,
    ((claim_C8_pause_discards PDState.new 0 sampleTcp .Tcp true).2 rfl).1⟩

namespace PDState

theorem update_packetDump_simple (s : PDState) (hc : s.changed_interface = false)
    (hp : s.dump_paused = false) (t : Nat) (r : PacketsInfoTypesEnum)
    (k : PacketTypeEnum) (b : Bool) :
    s.update (.packetDump t r k) b = s.pushPacket t r k := by
  rw [update_packetDump, checkCI_of_not_changed s hc, if_neg]
  rw [hp]
  simp

theorem pushPacket_bucket_capacity (s : PDState) (t : Nat)
    (r : PacketsInfoTypesEnum) (k k' : PacketTypeEnum) :
    ((s.pushPacket t r k).bucket k').capacity = (s.bucket k').capacity := by
  cases k <;> cases k' <;> rfl

/-- The heart of C7: folding protocol-kind `PacketDump` updates while
under capacity appends each record to `all_packets` and filters it into
its kind bucket. -/
theorem applySeq_packetDump_data
    (l : List (Nat × PacketsInfoTypesEnum × PacketTypeEnum)) :
    ∀ s : PDState,
    s.changed_interface = false →
    s.dump_paused = false →
    (∀ k, (s.bucket k).capacity = MAX_PACKET_HISTORY) →
    (∀ k, k ≠ PacketTypeEnum.All →
      (s.bucket k).data.length ≤ s.all_packets.data.length) →
    s.all_packets.data.length + l.length ≤ MAX_PACKET_HISTORY →
    (∀ e ∈ l, e.2.2 ≠ PacketTypeEnum.All) →
    (PDState.applySeq s
        (l.map fun e => PDAction.packetDump e.1 e.2.1 e.2.2)).all_packets.data
      = s.all_packets.data ++ l.map (fun e => (e.1, e.2.1)) ∧
    ∀ k, k ≠ PacketTypeEnum.All →
      ((PDState.applySeq s
          (l.map fun e => PDAction.packetDump e.1 e.2.1 e.2.2)).bucket k).data
        = (s.bucket k).data
          ++ (l.filter fun e => decide (e.2.2 = k)).map (fun e => (e.1, e.2.1)) := by
  induction l with
  | nil =>
    intro s _ _ _ _ _ _
    constructor
    · simp [PDState.applySeq]
    · intro k _
      simp [PDState.applySeq]
  | cons e t ih =>
    intro s hc hp hcap hle hbudget hkinds
    have hke : e.2.2 ≠ PacketTypeEnum.All := hkinds e (List.mem_cons_self e t)
    have hkt : ∀ x ∈ t, x.2.2 ≠ PacketTypeEnum.All := fun x hx =>
      hkinds x (List.mem_cons_of_mem e hx)
    have hstep : PDState.applySeq s ((e :: t).map fun x =>
        PDAction.packetDump x.1 x.2.1 x.2.2)
        = PDState.applySeq (s.pushPacket e.1 e.2.1 e.2.2)
            (t.map fun x => PDAction.packetDump x.1 x.2.1 x.2.2) := by
      simp only [List.map_cons]
      show PDState.applySeq (s.update (.packetDump e.1 e.2.1 e.2.2) true) _ = _
      rw [update_packetDump_simple s hc hp]
    set s1 := s.pushPacket e.1 e.2.1 e.2.2 with hs1
    have hbudget0 : s.all_packets.data.length < MAX_PACKET_HISTORY := by
      have := hbudget
      simp only [List.length_cons] at this
      omega
    have hallcap : s.all_packets.capacity = MAX_PACKET_HISTORY := hcap .All
    have hall1 : s1.all_packets.data = s.all_packets.data ++ [(e.1, e.2.1)] := by
      rw [hs1, pushPacket_all]
      exact MaxSizeVec.push_of_lt _ _ (by rw [hallcap]; exact hbudget0)
    have hbune : s1.bucket e.2.2 = (s.bucket e.2.2).push (e.1, e.2.1) :=
      pushPacket_bucket_self s e.1 e.2.1 e.2.2 hke
    have hbke : (s1.bucket e.2.2).data
        = (s.bucket e.2.2).data ++ [(e.1, e.2.1)] := by
      rw [hbune]
      exact MaxSizeVec.push_of_lt _ _ (by
        rw [hcap e.2.2]
        exact Nat.lt_of_le_of_lt (hle e.2.2 hke) hbudget0)
    have hc1 : s1.changed_interface = false := by
      rw [hs1, (pushPacket_flags s e.1 e.2.1 e.2.2).2]
      exact hc
    have hp1 : s1.dump_paused = false := by
      rw [hs1, (pushPacket_flags s e.1 e.2.1 e.2.2).1]
      exact hp
    have hcap1 : ∀ k, (s1.bucket k).capacity = MAX_PACKET_HISTORY := by
      intro k
      rw [hs1, pushPacket_bucket_capacity]
      exact hcap k
    have hlen_all1 : s1.all_packets.data.length
        = s.all_packets.data.length + 1 := by
      rw [hall1]
      simp
    have hle1 : ∀ k, k ≠ PacketTypeEnum.All →
        (s1.bucket k).data.length ≤ s1.all_packets.data.length := by
      intro k hk
      by_cases hke2 : k = e.2.2
      · rw [hke2, hbke, hlen_all1]
        simp only [List.length_append, List.length_cons, List.length_nil]
        have h2 := hle k hk
        rw [hke2] at h2
        omega
      · rw [hs1, pushPacket_bucket_other s e.1 e.2.1 e.2.2 k hke2 hk,
          hlen_all1]
        have := hle k hk
        omega
    have hbudget1 : s1.all_packets.data.length + t.length
        ≤ MAX_PACKET_HISTORY := by
      rw [hlen_all1]
      simp only [List.length_cons] at hbudget
      omega
    obtain ⟨ihall, ihbuckets⟩ := ih s1 hc1 hp1 hcap1 hle1 hbudget1 hkt
    rw [hstep]
    constructor
    · rw [ihall, hall1, List.append_assoc]
      simp
    · intro k hk
      rw [ihbuckets k hk]
      by_cases hke2 : e.2.2 = k
      · rw [← hke2, hbke, List.filter_cons, if_pos (by simp [hke2])]
        simp only [List.map_cons]
        rw [List.append_assoc]
        simp
      · rw [hs1, pushPacket_bucket_other s e.1 e.2.1 e.2.2 k
          (fun hx => hke2 hx.symm) hk]
        rw [List.filter_cons, if_neg (by simp [hke2])]

end PDState

/-- The five protocol filters partition a stream of protocol-kind records:
as multisets, the whole stream is the disjoint union of the filters. -/
theorem filter_partition_multiset
    (l : List (Nat × PacketsInfoTypesEnum × PacketTypeEnum))
    (h : ∀ e ∈ l, e.2.2 ≠ PacketTypeEnum.All) :
    Multiset.ofList (l.map (fun e => (e.1, e.2.1)))
      = Multiset.ofList
          ((l.filter fun e => decide (e.2.2 = PacketTypeEnum.Arp)).map
            (fun e => (e.1, e.2.1)))
        + Multiset.ofList
            ((l.filter fun e => decide (e.2.2 = PacketTypeEnum.Tcp)).map
              (fun e => (e.1, e.2.1)))
        + Multiset.ofList
            ((l.filter fun e => decide (e.2.2 = PacketTypeEnum.Udp)).map
              (fun e => (e.1, e.2.1)))
        + Multiset.ofList
            ((l.filter fun e => decide (e.2.2 = PacketTypeEnum.Icmp)).map
              (fun e => (e.1, e.2.1)))
        + Multiset.ofList
            ((l.filter fun e => decide (e.2.2 = PacketTypeEnum.Icmp6)).map
              (fun e => (e.1, e.2.1))) := by
  induction l with
  | nil => simp
  | cons e t ih =>
    have he := h e (List.mem_cons_self e t)
    have ht : ∀ x ∈ t, x.2.2 ≠ PacketTypeEnum.All := fun x hx =>
      h x (List.mem_cons_of_mem e hx)
    have iht := ih ht
    cases hk : e.2.2 with
    | All => exact absurd hk he
    | Arp =>
      have f1 : (e :: t).filter (fun x => decide (x.2.2 = PacketTypeEnum.Arp))
          = e :: t.filter (fun x => decide (x.2.2 = PacketTypeEnum.Arp)) := by
        simp [List.filter_cons, hk]
      have f2 : (e :: t).filter (fun x => decide (x.2.2 = PacketTypeEnum.Tcp))
          = t.filter (fun x => decide (x.2.2 = PacketTypeEnum.Tcp)) := by
        simp [List.filter_cons, hk]
      have f3 : (e :: t).filter (fun x => decide (x.2.2 = PacketTypeEnum.Udp))
          = t.filter (fun x => decide (x.2.2 = PacketTypeEnum.Udp)) := by
        simp [List.filter_cons, hk]
      have f4 : (e :: t).filter (fun x => decide (x.2.2 = PacketTypeEnum.Icmp))
          = t.filter (fun x => decide (x.2.2 = PacketTypeEnum.Icmp)) := by
        simp [List.filter_cons, hk]
      have f5 : (e :: t).filter (fun x => decide (x.2.2 = PacketTypeEnum.Icmp6))
          = t.filter (fun x => decide (x.2.2 = PacketTypeEnum.Icmp6)) := by
        simp [List.filter_cons, hk]
      rw [f1, f2, f3, f4, f5]
      simp only [List.map_cons, ← Multiset.cons_coe, Multiset.cons_add,
        Multiset.add_cons]
      rw [iht]
    | Tcp =>
      have f1 : (e :: t).filter (fun x => decide (x.2.2 = PacketTypeEnum.Arp))
          = t.filter (fun x => decide (x.2.2 = PacketTypeEnum.Arp)) := by
        simp [List.filter_cons, hk]
      have f2 : (e :: t).filter (fun x => decide (x.2.2 = PacketTypeEnum.Tcp))
          = e :: t.filter (fun x => decide (x.2.2 = PacketTypeEnum.Tcp)) := by
        simp [List.filter_cons, hk]
      have f3 : (e :: t).filter (fun x => decide (x.2.2 = PacketTypeEnum.Udp))
          = t.filter (fun x => decide (x.2.2 = PacketTypeEnum.Udp)) := by
        simp [List.filter_cons, hk]
      have f4 : (e :: t).filter (fun x => decide (x.2.2 = PacketTypeEnum.Icmp))
          = t.filter (fun x => decide (x.2.2 = PacketTypeEnum.Icmp)) := by
        simp [List.filter_cons, hk]
      have f5 : (e :: t).filter (fun x => decide (x.2.2 = PacketTypeEnum.Icmp6))
          = t.filter (fun x => decide (x.2.2 = PacketTypeEnum.Icmp6)) := by
        simp [List.filter_cons, hk]
      rw [f1, f2, f3, f4, f5]
      simp only [List.map_cons, ← Multiset.cons_coe, Multiset.cons_add,
        Multiset.add_cons]
      rw [iht]
    | Udp =>
      have f1 : (e :: t).filter (fun x => decide (x.2.2 = PacketTypeEnum.Arp))
          = t.filter (fun x => decide (x.2.2 = PacketTypeEnum.Arp)) := by
        simp [List.filter_cons, hk]
      have f2 : (e :: t).filter (fun x => decide (x.2.2 = PacketTypeEnum.Tcp))
          = t.filter (fun x => decide (x.2.2 = PacketTypeEnum.Tcp)) := by
        simp [List.filter_cons, hk]
      have f3 : (e :: t).filter (fun x => decide (x.2.2 = PacketTypeEnum.Udp))
          = e :: t.filter (fun x => decide (x.2.2 = PacketTypeEnum.Udp)) := by
        simp [List.filter_cons, hk]
      have f4 : (e :: t).filter (fun x => decide (x.2.2 = PacketTypeEnum.Icmp))
          = t.filter (fun x => decide (x.2.2 = PacketTypeEnum.Icmp)) := by
        simp [List.filter_cons, hk]
      have f5 : (e :: t).filter (fun x => decide (x.2.2 = PacketTypeEnum.Icmp6))
          = t.filter (fun x => decide (x.2.2 = PacketTypeEnum.Icmp6)) := by
        simp [List.filter_cons, hk]
      rw [f1, f2, f3, f4, f5]
      simp only [List.map_cons, ← Multiset.cons_coe, Multiset.cons_add,
        Multiset.add_cons]
      rw [iht]
    | Icmp =>
      have f1 : (e :: t).filter (fun x => decide (x.2.2 = PacketTypeEnum.Arp))
          = t.filter (fun x => decide (x.2.2 = PacketTypeEnum.Arp)) := by
        simp [List.filter_cons, hk]
      have f2 : (e :: t).filter (fun x => decide (x.2.2 = PacketTypeEnum.Tcp))
          = t.filter (fun x => decide (x.2.2 = PacketTypeEnum.Tcp)) := by
        simp [List.filter_cons, hk]
      have f3 : (e :: t).filter (fun x => decide (x.2.2 = PacketTypeEnum.Udp))
          = t.filter (fun x => decide (x.2.2 = PacketTypeEnum.Udp)) := by
        simp [List.filter_cons, hk]
      have f4 : (e :: t).filter (fun x => decide (x.2.2 = PacketTypeEnum.Icmp))
          = e :: t.filter (fun x => decide (x.2.2 = PacketTypeEnum.Icmp)) := by
        simp [List.filter_cons, hk]
      have f5 : (e :: t).filter (fun x => decide (x.2.2 = PacketTypeEnum.Icmp6))
          = t.filter (fun x => decide (x.2.2 = PacketTypeEnum.Icmp6)) := by
        simp [List.filter_cons, hk]
      rw [f1, f2, f3, f4, f5]
      simp only [List.map_cons, ← Multiset.cons_coe, Multiset.cons_add,
        Multiset.add_cons]
      rw [iht]
    | Icmp6 =>
      have f1 : (e :: t).filter (fun x => decide (x.2.2 = PacketTypeEnum.Arp))
          = t.filter (fun x => decide (x.2.2 = PacketTypeEnum.Arp)) := by
        simp [List.filter_cons, hk]
      have f2 : (e :: t).filter (fun x => decide (x.2.2 = PacketTypeEnum.Tcp))
          = t.filter (fun x => decide (x.2.2 = PacketTypeEnum.Tcp)) := by
        simp [List.filter_cons, hk]
      have f3 : (e :: t).filter (fun x => decide (x.2.2 = PacketTypeEnum.Udp))
          = t.filter (fun x => decide (x.2.2 = PacketTypeEnum.Udp)) := by
        simp [List.filter_cons, hk]
      have f4 : (e :: t).filter (fun x => decide (x.2.2 = PacketTypeEnum.Icmp))
          = t.filter (fun x => decide (x.2.2 = PacketTypeEnum.Icmp)) := by
        simp [List.filter_cons, hk]
      have f5 : (e :: t).filter (fun x => decide (x.2.2 = PacketTypeEnum.Icmp6))
          = e :: t.filter (fun x => decide (x.2.2 = PacketTypeEnum.Icmp6)) := by
        simp [List.filter_cons, hk]
      rw [f1, f2, f3, f4, f5]
      simp only [List.map_cons, ← Multiset.cons_coe, Multiset.cons_add,
        Multiset.add_cons]
      rw [iht]

/-- C7: processing any sequence of protocol-kind (`≠ All`) `PacketDump`
actions from a fresh component (not paused), of total length at most the
capacity, appends each record both to its kind bucket and to `all_packets`
(no drops occur), and afterwards the multiset of `all_packets` is the
disjoint union of the five protocol buckets. -/
theorem claim_C7_all_is_disjoint_union
    (l : List (Nat × PacketsInfoTypesEnum × PacketTypeEnum))
    (hkinds : ∀ e ∈ l, e.2.2 ≠ PacketTypeEnum.All)
    (hlen : l.length ≤ MAX_PACKET_HISTORY) :
    (PDState.applySeq PDState.new
        (l.map fun e => PDAction.packetDump e.1 e.2.1 e.2.2)).all_packets.data
      = l.map (fun e => (e.1, e.2.1)) ∧
    (∀ k, k ≠ PacketTypeEnum.All →
      ((PDState.applySeq PDState.new
          (l.map fun e => PDAction.packetDump e.1 e.2.1 e.2.2)).bucket k).data
        = (l.filter fun e => decide (e.2.2 = k)).map (fun e => (e.1, e.2.1))) ∧
    Multiset.ofList
        (PDState.applySeq PDState.new
          (l.map fun e => PDAction.packetDump e.1 e.2.1 e.2.2)).all_packets.data
      = Multiset.ofList
          ((PDState.applySeq PDState.new
            (l.map fun e => PDAction.packetDump e.1 e.2.1 e.2.2)).arp_packets.data)
        + Multiset.ofList
            ((PDState.applySeq PDState.new
              (l.map fun e => PDAction.packetDump e.1 e.2.1 e.2.2)).tcp_packets.data)
        + Multiset.ofList
            ((PDState.applySeq PDState.new
              (l.map fun e => PDAction.packetDump e.1 e.2.1 e.2.2)).udp_packets.data)
        + Multiset.ofList
            ((PDState.applySeq PDState.new
              (l.map fun e => PDAction.packetDump e.1 e.2.1 e.2.2)).icmp_packets.data)
        + Multiset.ofList
            ((PDState.applySeq PDState.new
              (l.map fun e => PDAction.packetDump e.1 e.2.1 e.2.2)).icmp6_packets.data) := by
  obtain ⟨hall, hbuckets⟩ := PDState.applySeq_packetDump_data l PDState.new
    rfl rfl (fun k => by cases k <;> rfl)
    (fun k _ => by cases k <;> exact Nat.le_refl 0)
    (by simpa [PDState.new, MaxSizeVec.new] using hlen) hkinds
  have hall' : (PDState.applySeq PDState.new
      (l.map fun e => PDAction.packetDump e.1 e.2.1 e.2.2)).all_packets.data
      = l.map (fun e => (e.1, e.2.1)) := by
    rw [hall]
    rfl
  have hb : ∀ k, k ≠ PacketTypeEnum.All →
      ((PDState.applySeq PDState.new
          (l.map fun e => PDAction.packetDump e.1 e.2.1 e.2.2)).bucket k).data
        = (l.filter fun e => decide (e.2.2 = k)).map (fun e => (e.1, e.2.1)) := by
    intro k hk
    rw [hbuckets k hk]
    cases k <;> rfl
  refine ⟨hall', hb, ?_⟩
  rw [hall',
    show (PDState.applySeq PDState.new
        (l.map fun e => PDAction.packetDump e.1 e.2.1 e.2.2)).arp_packets
      = (PDState.applySeq PDState.new
          (l.map fun e => PDAction.packetDump e.1 e.2.1 e.2.2)).bucket .Arp from rfl,
    show (PDState.applySeq PDState.new
        (l.map fun e => PDAction.packetDump e.1 e.2.1 e.2.2)).tcp_packets
      = (PDState.applySeq PDState.new
          (l.map fun e => PDAction.packetDump e.1 e.2.1 e.2.2)).bucket .Tcp from rfl,
    show (PDState.applySeq PDState.new
        (l.map fun e => PDAction.packetDump e.1 e.2.1 e.2.2)).udp_packets
      = (PDState.applySeq PDState.new
          (l.map fun e => PDAction.packetDump e.1 e.2.1 e.2.2)).bucket .Udp from rfl,
    show (PDState.applySeq PDState.new
        (l.map fun e => PDAction.packetDump e.1 e.2.1 e.2.2)).icmp_packets
      = (PDState.applySeq PDState.new
          (l.map fun e => PDAction.packetDump e.1 e.2.1 e.2.2)).bucket .Icmp from rfl,
    show (PDState.applySeq PDState.new
        (l.map fun e => PDAction.packetDump e.1 e.2.1 e.2.2)).icmp6_packets
      = (PDState.applySeq PDState.new
          (l.map fun e => PDAction.packetDump e.1 e.2.1 e.2.2)).bucket .Icmp6 from rfl,
    hb .Arp (by simp), hb .Tcp (by simp), hb .Udp (by simp),
    hb .Icmp (by simp), hb .Icmp6 (by simp)]
  exact filter_partition_multiset l hkinds

/-- Witness for C7 at a concrete two-record stream (one TCP, one ARP). -/
theorem claim_C7_witness :
    (PDState.applySeq PDState.new
        ([((0 : Nat), sampleTcp, PacketTypeEnum.Tcp),
          ((1 : Nat), sampleArp, PacketTypeEnum.Arp)].map
          fun e => PDAction.packetDump e.1 e.2.1 e.2.2)).all_packets.data
      = [((0 : Nat), sampleTcp, PacketTypeEnum.Tcp),
          ((1 : Nat), sampleArp, PacketTypeEnum.Arp)].map
          (fun e => (e.1, e.2.1)) :=
  (claim_C7_all_is_disjoint_union
    [((0 : Nat), sampleTcp, PacketTypeEnum.Tcp),
      ((1 : Nat), sampleArp, PacketTypeEnum.Arp)]
    (by intro e he; fin_cases he <;> decide)
    (by simp [MAX_PACKET_HISTORY])).1

/-- C9: the ICMP dissector emits a record only when the parsed ICMP type
is `EchoReply` (0) or `EchoRequest` (8), with `seq` and `id` read from the
echo sub-header (big-endian u16s at offsets 6 and 4); for every other ICMP
type — e.g. type 3, destination unreachable — no record is emitted. -/
theorem claim_C9_icmp_echo_only (name : String) (src dst : IpAddr)
    (p : List Nat) :
    (∀ rec k, handle_icmp_packet name src dst p = some (rec, k) →
      k = PacketTypeEnum.Icmp ∧
      ∃ info, rec = PacketsInfoTypesEnum.Icmp info ∧
        (IcmpPacket.get_icmp_type p = IcmpTypes_EchoReply ∨
         IcmpPacket.get_icmp_type p = IcmpTypes_EchoRequest) ∧
        info.icmp_type = IcmpPacket.get_icmp_type p ∧
        info.seq = EchoPacket.get_sequence_number p ∧
        info.id = EchoPacket.get_identifier p) ∧
    (IcmpPacket.get_icmp_type p ≠ IcmpTypes_EchoReply →
      IcmpPacket.get_icmp_type p ≠ IcmpTypes_EchoRequest →
      handle_icmp_packet name src dst p = none) := by
  by_cases h4 : 4 ≤ p.length
  · by_cases ht0 : IcmpPacket.get_icmp_type p = IcmpTypes_EchoReply
    · by_cases h8 : 8 ≤ p.length
      · constructor
        · intro rec k h
          simp only [handle_icmp_packet, IcmpPacket.new, EchoPacket.new,
            if_pos h4, if_pos h8, ht0, if_pos rfl] at h
          injection h with h
          injection h with hrec hk
          subst hk
          exact ⟨rfl, _, hrec.symm, Or.inl ht0, ht0.symm, rfl, rfl⟩
        · intro hne0 _
          exact absurd ht0 hne0
      · constructor
        · intro rec k h
          simp [handle_icmp_packet, IcmpPacket.new, EchoPacket.new,
            if_pos h4, if_neg h8, ht0] at h
        · intro hne0 _
          exact absurd ht0 hne0
    · by_cases ht8 : IcmpPacket.get_icmp_type p = IcmpTypes_EchoRequest
      · by_cases h8 : 8 ≤ p.length
        · constructor
          · intro rec k h
            simp only [handle_icmp_packet, IcmpPacket.new, EchoPacket.new,
              if_pos h4, if_pos h8, if_neg ht0, ht8, if_pos rfl] at h
            injection h with h
            injection h with hrec hk
            subst hk
            exact ⟨rfl, _, hrec.symm, Or.inr ht8, ht8.symm, rfl, rfl⟩
          · intro _ hne8
            exact absurd ht8 hne8
        · constructor
          · intro rec k h
            simp [handle_icmp_packet, IcmpPacket.new, EchoPacket.new,
              if_pos h4, if_neg h8, if_neg ht0, ht8] at h
          · intro _ hne8
            exact absurd ht8 hne8
      · constructor
        · intro rec k h
          simp [handle_icmp_packet, IcmpPacket.new, if_pos h4,
            if_neg ht0, if_neg ht8] at h
        · intro _ _
          simp [handle_icmp_packet, IcmpPacket.new, if_pos h4,
            if_neg ht0, if_neg ht8]
  · constructor
    · intro rec k h
      simp [handle_icmp_packet, IcmpPacket.new, if_neg h4] at h
    · intro _ _
      simp [handle_icmp_packet, IcmpPacket.new, if_neg h4]

/-- Witness for C9: a type-3 (destination unreachable) packet yields no
record; an echo request with id 42 and seq 7 yields an `Icmp` record with
`seq`/`id` read off the echo sub-header. -/
theorem claim_C9_witness :
    handle_icmp_packet "eth0" ⟨"10.0.0.1"⟩ ⟨"10.0.0.2"⟩ icmpType3Packet
        = none ∧
    (icmpEchoReqResult.2 = PacketTypeEnum.Icmp ∧
      ∃ info, icmpEchoReqResult.1 = PacketsInfoTypesEnum.Icmp info ∧
        (IcmpPacket.get_icmp_type icmpEchoReqPacket = IcmpTypes_EchoReply ∨
         IcmpPacket.get_icmp_type icmpEchoReqPacket = IcmpTypes_EchoRequest) ∧
        info.icmp_type = IcmpPacket.get_icmp_type icmpEchoReqPacket ∧
        info.seq = EchoPacket.get_sequence_number icmpEchoReqPacket ∧
        info.id = EchoPacket.get_identifier icmpEchoReqPacket) :=
  ⟨(claim_C9_icmp_echo_only "eth0" ⟨"10.0.0.1"⟩ ⟨"10.0.0.2"⟩
      icmpType3Packet).2 (by decide) (by decide),
    (claim_C9_icmp_echo_only "eth0" ⟨"10.0.0.1"⟩ ⟨"10.0.0.2"⟩
      icmpEchoReqPacket).1 icmpEchoReqResult.1 icmpEchoReqResult.2 rfl⟩

/-- C10 (implicit): for every successfully dissected ARP frame, the
emitted `Arp` record's `source_mac`/`destination_mac` come from the
Ethernet header, while the `ArpRecieve` notification's
`sender_mac`/`target_mac` come from the ARP payload's hardware-address
fields; the two MAC pairs can therefore disagree on a single frame. -/
theorem claim_C10_arp_mac_sources :
    (∀ (name : String) (frame : List Nat) d rec k,
      handle_arp_packet name frame = some (d, rec, k) →
      ∃ info, rec = PacketsInfoTypesEnum.Arp info ∧
        info.source_mac = EthernetPacket.get_source frame ∧
        info.destination_mac = EthernetPacket.get_destination frame ∧
        d.sender_mac
            = ArpPacket.get_sender_hw_addr (EthernetPacket.payload frame) ∧
        d.target_mac
            = ArpPacket.get_target_hw_addr (EthernetPacket.payload frame)) ∧
    (∃ (name : String) (frame : List Nat) (d : ArpPacketData)
        (r : PacketsInfoTypesEnum) (k : PacketTypeEnum) (info : ARPPacketInfo),
      handle_arp_packet name frame = some (d, r, k) ∧
      r = PacketsInfoTypesEnum.Arp info ∧
      info.source_mac ≠ d.sender_mac ∧
      info.destination_mac ≠ d.target_mac) := by
  constructor
  · intro name frame d rec k h
    by_cases h28 : 28 ≤ (EthernetPacket.payload frame).length
    · simp only [handle_arp_packet, ArpPacket.new, if_pos h28,
        Option.some_inj, Prod.mk.injEq] at h
      obtain ⟨hd, hrec, hk⟩ := h
      subst hd
      subst hrec
      exact ⟨_, rfl, rfl, rfl, rfl, rfl⟩
    · simp [handle_arp_packet, ArpPacket.new, if_neg h28] at h
  · refine ⟨"eth0", arpMismatchFrame, arpMismatchResult.1,
      arpMismatchResult.2.1, arpMismatchResult.2.2, arpMismatchInfo,
      rfl, rfl, by decide, by decide⟩

/-- Witness for C10 at the concrete mismatching frame. -/
theorem claim_C10_witness :
    ∃ info, arpMismatchResult.2.1 = PacketsInfoTypesEnum.Arp info ∧
      info.source_mac = EthernetPacket.get_source arpMismatchFrame ∧
      info.destination_mac = EthernetPacket.get_destination arpMismatchFrame ∧
      arpMismatchResult.1.sender_mac
          = ArpPacket.get_sender_hw_addr
              (EthernetPacket.payload arpMismatchFrame) ∧
      arpMismatchResult.1.target_mac
          = ArpPacket.get_target_hw_addr
              (EthernetPacket.payload arpMismatchFrame) :=
  claim_C10_arp_mac_sources.1 "eth0" arpMismatchFrame arpMismatchResult.1
    arpMismatchResult.2.1 arpMismatchResult.2.2 rfl

/-- Witness for C6: 1001 pushes into a capacity-1000 bucket. -/
theorem claim_C6_witness :
    ((MaxSizeVec.new (Nat × PacketsInfoTypesEnum) MAX_PACKET_HISTORY).pushAll
        (List.replicate 1001 (0, sampleArp))).data
      = (List.replicate 1001 ((0 : Nat), sampleArp)).drop
          ((List.replicate 1001 ((0 : Nat), sampleArp)).length - 1000) ∧
    ((MaxSizeVec.new (Nat × PacketsInfoTypesEnum) MAX_PACKET_HISTORY).pushAll
        (List.replicate 1001 (0, sampleArp))).data.length = 1000 :=
  claim_C6_history_bound.2 (List.replicate 1001 (0, sampleArp))
    (by rw [List.length_replicate]; omega)

end Netscanner
